import Mathlib

/-!
Verification of the autougc pipeline core.

This file embeds, in Lean, the pure pipeline-status logic of
`src/web/src/components/pipeline-flow.tsx` (the step catalog,
`findCompletedUpTo` and `deriveNodeStatuses`), the polling client of
`src/web/src/hooks/usePipeline.ts` (`startPolling`, `pollStatus`,
`stopPolling`), and the prompt fallback resolver described in the spec
(implemented in a backend service whose source is not in the repository),
and proves the specified properties about them.
-/

namespace AutoUGC

/-- Type `PipelineStatus` from `src/web/src/types/pipeline.ts` / the hook:
the overall job status `idle | running | completed | failed`. -/
inductive PipelineStatus
  | idle
  | running
  | completed
  | failed
deriving DecidableEq, Repr, Fintype

/-- Type `NodeStatus` from `pipeline-flow.tsx`:
`"idle" | "completed" | "running" | "pending" | "failed"`. -/
inductive NodeStatus
  | idle
  | completed
  | running
  | pending
  | failed
deriving DecidableEq, Repr, Fintype

/-- Type `PipelineNodeId`: the closed enumeration of the six catalog steps. -/
inductive PipelineNodeId
  | download_video
  | extract_frames
  | analyze_video
  | generate_prompt
  | generate_scene_image
  | generate_video
deriving DecidableEq, Repr, Fintype

/-- One entry of the `PIPELINE_NODES` array (icon omitted: pure UI). -/
structure PipelineNode where
  id : PipelineNodeId
  label : String
  completedStep : String
deriving DecidableEq, Repr

/-- The ordered step catalog `PIPELINE_NODES` of `pipeline-flow.tsx`. -/
def PIPELINE_NODES : List PipelineNode := [
  ⟨PipelineNodeId.download_video, "Download", "video_downloaded"⟩,
  ⟨PipelineNodeId.extract_frames, "Extract", "frames_extracted"⟩,
  ⟨PipelineNodeId.analyze_video, "Analyze", "video_analyzed"⟩,
  ⟨PipelineNodeId.generate_prompt, "Prompt", "prompt_generated"⟩,
  ⟨PipelineNodeId.generate_scene_image, "Scene", "scene_image_generated"⟩,
  ⟨PipelineNodeId.generate_video, "Video", "video_generated"⟩]

/-- The id of the catalog step at a given index. -/
def stepId (i : Fin PIPELINE_NODES.length) : PipelineNodeId :=
  (PIPELINE_NODES.get i).id

/-- The completion markers of the catalog, in order. -/
def completionMarkers : List String :=
  PIPELINE_NODES.map (fun node => node.completedStep)

/-- The loop condition of `findCompletedUpTo`:
`PIPELINE_NODES[i].completedStep === currentStep ||
 (currentStep === "scene_image_skipped" &&
  PIPELINE_NODES[i].id === "generate_scene_image")`. -/
def matchesNode (currentStep : String) (node : PipelineNode) : Bool :=
  node.completedStep == currentStep ||
    (currentStep == "scene_image_skipped" &&
      node.id == PipelineNodeId.generate_scene_image)

/-- The downward loop of `findCompletedUpTo`: fuel `n` means the next index
to test is `n - 1`; `0` means the loop is exhausted and `-1` is returned. -/
def findCompletedUpToLoop (currentStep : String) : Nat → Int
  | 0 => -1
  | n + 1 =>
    match PIPELINE_NODES[n]? with
    | some node =>
      if matchesNode currentStep node then (n : Int)
      else findCompletedUpToLoop currentStep n
    | none => findCompletedUpToLoop currentStep n

/-- Function `findCompletedUpTo` from `pipeline-flow.tsx`: scan the catalog from the
last index down and return the first (hence highest) index whose entry
matches `currentStep`, or `-1` when none matches. -/
def findCompletedUpTo (currentStep : String) : Int :=
  findCompletedUpToLoop currentStep PIPELINE_NODES.length

/-- Record assignment `result[k] = v` on the `Record<PipelineNodeId, NodeStatus>`
being built (later assignments shadow earlier ones). -/
def setNS (r : PipelineNodeId → NodeStatus) (k : PipelineNodeId) (v : NodeStatus) :
    PipelineNodeId → NodeStatus :=
  fun k2 => if k2 = k then v else r k2

/-- The initial `{} as Record<PipelineNodeId, NodeStatus>`; every key is
assigned by the loops before the record is read, so the placeholder value
is never observable. -/
def emptyRecord : PipelineNodeId → NodeStatus := fun _ => NodeStatus.idle

/-- The body of `deriveNodeStatuses` after the `idle` early return, with
`completedUpTo` already resolved.  Mirrors the two index loops and the two
trailing edge-case fixups of `pipeline-flow.tsx` lines 56–92. -/
def deriveFromIndex (completedUpTo : Int) (pipelineStatus : PipelineStatus) :
    PipelineNodeId → NodeStatus :=
  if pipelineStatus = PipelineStatus.failed then
    let r := (List.range PIPELINE_NODES.length).foldl (fun r i =>
      match PIPELINE_NODES[i]? with
      | some node =>
        if (i : Int) ≤ completedUpTo then setNS r node.id NodeStatus.completed
        else if (i : Int) = completedUpTo + 1 then setNS r node.id NodeStatus.failed
        else setNS r node.id NodeStatus.pending
      | none => r) emptyRecord
    -- Edge case: failed before any step completed
    if completedUpTo = -1 then
      let r := match PIPELINE_NODES[0]? with
        | some node => setNS r node.id NodeStatus.failed
        | none => r
      (List.range' 1 (PIPELINE_NODES.length - 1)).foldl (fun r i =>
        match PIPELINE_NODES[i]? with
        | some node => setNS r node.id NodeStatus.pending
        | none => r) r
    else r
  else
    -- running or completed pipeline
    let r := (List.range PIPELINE_NODES.length).foldl (fun r i =>
      match PIPELINE_NODES[i]? with
      | some node =>
        if (i : Int) ≤ completedUpTo then setNS r node.id NodeStatus.completed
        else if (i : Int) = completedUpTo + 1 ∧ pipelineStatus = PipelineStatus.running then
          setNS r node.id NodeStatus.running
        else
          setNS r node.id
            (if pipelineStatus = PipelineStatus.completed then NodeStatus.completed
             else NodeStatus.pending)
      | none => r) emptyRecord
    -- If pipeline is running but no step completed yet, first node is running
    if pipelineStatus = PipelineStatus.running ∧ completedUpTo = -1 then
      match PIPELINE_NODES[0]? with
      | some node => setNS r node.id NodeStatus.running
      | none => r
    else r

/-- Function `deriveNodeStatuses` from `pipeline-flow.tsx`: the `idle` early return,
then the marker is resolved with `findCompletedUpTo` and the per-index
derivation runs. -/
def deriveNodeStatuses (currentStep : String) (pipelineStatus : PipelineStatus) :
    PipelineNodeId → NodeStatus :=
  if pipelineStatus = PipelineStatus.idle then
    PIPELINE_NODES.foldl (fun r node => setNS r node.id NodeStatus.idle) emptyRecord
  else
    deriveFromIndex (findCompletedUpTo currentStep) pipelineStatus

/-! Prompt fallback resolver.

`PipelineResult` in `usePipeline.ts` carries `basePrompt`, `mechanicsPrompt`,
`finalPrompt` and `promptSource`, and the pipeline API route maps the
backend's `final_prompt` / `prompt_source`; the resolver that picks the tier
runs in the Python backend, whose source is not in the repository. -/

/-- Provenance label of the selected prompt: `enhanced | base | fallback`. -/
inductive PromptSource
  | enhanced
  | base
  | fallback
deriving DecidableEq, Repr

/-- The Prompt Provenance Result: the selected prompt text and which tier
supplied it. -/
structure PromptProvenanceResult where
  text : String
  source : PromptSource
deriving DecidableEq, Repr

/-- Modelled from the spec: the Prompt Fallback Resolver is implemented in
the Python pipeline backend (`final_prompt` / `prompt_source` of the status
response), which is not among the repository files; only its callers are.
Following the spec's words: if the enhanced/enrichment result is present and
non-empty, it wins with source `enhanced`; else if the base result is
present and non-empty, it wins with source `base`; else the caller-supplied
static template is returned with source `fallback`. -/
def resolvePrompt (enhancedResult baseResult : Option String) (template : String) :
    PromptProvenanceResult :=
  match enhancedResult with
  | some e =>
    if e ≠ "" then { text := e, source := PromptSource.enhanced }
    else
      match baseResult with
      | some b =>
        if b ≠ "" then { text := b, source := PromptSource.base }
        else { text := template, source := PromptSource.fallback }
      | none => { text := template, source := PromptSource.fallback }
  | none =>
    match baseResult with
    | some b =>
      if b ≠ "" then { text := b, source := PromptSource.base }
      else { text := template, source := PromptSource.fallback }
    | none => { text := template, source := PromptSource.fallback }

/-! Polling client.

Model of the polling logic of `usePipeline.ts`: the `useState` values and
the two refs of the hook, the requests it issues, and the calls it makes to
the observer callbacks.  Real time is abstracted: interval expirations are
`tick` events, and a completed HTTP exchange is a `resolvePoll` event. -/

/-- Field `PipelineResult.status` in `usePipeline.ts`:
`"pending" | "running" | "completed" | "failed"`. -/
inductive JobStatus
  | pending
  | running
  | completed
  | failed
deriving DecidableEq, Repr, Fintype

/-- The fields of a parsed status response that drive the polling logic
(the result payloads of `PipelineResult` are irrelevant to it). -/
structure PollResult where
  jobId : String
  status : JobStatus
  error : Option String
deriving DecidableEq, Repr

/-- A status request issued by `pollStatus`.  The `fetch` call there passes
only `method`, `headers` and `body` — no `signal` option — so the request
never carries an abort signal. -/
structure StatusRequest where
  jobId : String
  hasAbortSignal : Bool
deriving DecidableEq, Repr

/-- An issued request with its abort flag (settled requests are not pruned;
aborting a settled fetch is a no-op anyway). -/
structure InFlightRequest where
  req : StatusRequest
  aborted : Bool
deriving DecidableEq, Repr

/-- Calls made to the observer callbacks of `usePipeline`. -/
inductive ObserverEvent
  | onProgress (r : PollResult)
  | onComplete (r : PollResult)
  | onError (msg : String)
deriving DecidableEq, Repr

/-- Client-side state of the hook: the `useState` values plus the two refs.
`abortController = some b` models `abortControllerRef.current` holding a
controller with aborted-flag `b`; no statement of `usePipeline.ts` ever
assigns a controller to the ref, so it is `none` in every reachable state. -/
structure PollingClient where
  isLoading : Bool
  isPolling : Bool
  result : Option PollResult
  error : Option String
  intervalActive : Bool
  abortController : Option Bool
  inFlight : List InFlightRequest
  requestLog : List StatusRequest
deriving DecidableEq, Repr

/-- The hook's initial state: both refs `null`, no state set. -/
def initClient : PollingClient :=
  { isLoading := false, isPolling := false, result := none, error := none,
    intervalActive := false, abortController := none, inFlight := [], requestLog := [] }

/-- The `fetch` of `pollStatus`: issue one status request for `jobId`.  The
request carries no abort signal (none is passed to `fetch`). -/
def issuePoll (c : PollingClient) (jobId : String) : PollingClient :=
  let req : StatusRequest := { jobId := jobId, hasAbortSignal := false }
  { c with inFlight := c.inFlight ++ [{ req := req, aborted := false }],
           requestLog := c.requestLog ++ [req] }

/-- Function `stopPolling` of `usePipeline.ts`: clear the interval if one is set,
abort and drop the controller if one is set (aborting exactly the in-flight
requests that carry its signal), and clear `isPolling`. -/
def stopPolling (c : PollingClient) : PollingClient :=
  let c1 := if c.intervalActive then { c with intervalActive := false } else c
  let c2 := match c1.abortController with
    | some _ =>
      { c1 with
        inFlight := c1.inFlight.map (fun f : InFlightRequest =>
          if f.req.hasAbortSignal then { f with aborted := true } else f),
        abortController := none }
    | none => c1
  { c2 with isPolling := false }

/-- Function `startPolling` of `usePipeline.ts`: set `isPolling`, run the initial
`poll()` (which issues one status request), then install the interval. -/
def startPolling (c : PollingClient) (jobId : String) : PollingClient :=
  let c1 := { c with isPolling := true }
  let c2 := issuePoll c1 jobId
  { c2 with intervalActive := true }

/-- One interval expiration: `setInterval` fires `poll` (which issues one
status request) only while the interval is installed; after `clearInterval`
a tick does nothing. -/
def tick (c : PollingClient) (jobId : String) : PollingClient :=
  if c.intervalActive then issuePoll c jobId else c

/-- The outcome of one status check: `failure` models a network error or a
non-OK response (both throw inside `pollStatus` and are caught there);
`success` is a parsed OK response. -/
inductive PollOutcome
  | failure (msg : String)
  | success (r : PollResult)
deriving DecidableEq, Repr

/-- Completion of one status check: the `catch` of `pollStatus` plus the
body of `poll` inside `startPolling`.  On failure the error is stored and
reported via `onError`, and nothing else changes — in particular the
interval is untouched.  On success the result is stored and `onProgress`
fires; a `completed` status then runs `stopPolling`, clears `isLoading` and
fires `onComplete`; a `failed` status runs `stopPolling`, clears
`isLoading`, stores the job error and fires `onError`. -/
def resolvePoll (c : PollingClient) (outcome : PollOutcome) :
    PollingClient × List ObserverEvent :=
  match outcome with
  | PollOutcome.failure msg =>
    ({ c with error := some msg }, [ObserverEvent.onError msg])
  | PollOutcome.success r =>
    let c1 := { c with result := some r }
    match r.status with
    | JobStatus.completed =>
      let c2 := stopPolling c1
      ({ c2 with isLoading := false },
        [ObserverEvent.onProgress r, ObserverEvent.onComplete r])
    | JobStatus.failed =>
      let msg := r.error.getD ("Pipeline failed")
      let c2 := stopPolling c1
      ({ c2 with isLoading := false, error := some msg },
        [ObserverEvent.onProgress r, ObserverEvent.onError msg])
    | _ => (c1, [ObserverEvent.onProgress r])

/-- The backend job store, opaque to the client: job id to overall status.
`stopPolling` makes no request and no write to it. -/
structure World where
  client : PollingClient
  jobs : List (String × JobStatus)
deriving DecidableEq, Repr

/-- Function `stopPolling` lifted to the world: it only touches client state. -/
def stopPollingW (w : World) : World := { w with client := stopPolling w.client }

/-- A concrete world used as witness input: one running job whose polling
has just been started. -/
def sampleWorld : World :=
  { client := startPolling initClient ("job-1"),
    jobs := [("job-1", JobStatus.running)] }

/-- The downward scan of `findCompletedUpTo`, written out over the six
catalog entries (definitional unfolding of the loop). -/
lemma findCompletedUpTo_spec (m : String) :
    findCompletedUpTo m =
      if matchesNode m ⟨PipelineNodeId.generate_video, "Video", "video_generated"⟩ then 5
      else if matchesNode m
        ⟨PipelineNodeId.generate_scene_image, "Scene", "scene_image_generated"⟩ then 4
      else if matchesNode m ⟨PipelineNodeId.generate_prompt, "Prompt", "prompt_generated"⟩ then 3
      else if matchesNode m ⟨PipelineNodeId.analyze_video, "Analyze", "video_analyzed"⟩ then 2
      else if matchesNode m ⟨PipelineNodeId.extract_frames, "Extract", "frames_extracted"⟩ then 1
      else if matchesNode m ⟨PipelineNodeId.download_video, "Download", "video_downloaded"⟩ then 0
      else -1 := rfl

/-- The resolved completed index is always one of `-1, 0, …, 5`. -/
lemma findCompletedUpTo_cases (m : String) :
    findCompletedUpTo m = -1 ∨ findCompletedUpTo m = 0 ∨ findCompletedUpTo m = 1 ∨
    findCompletedUpTo m = 2 ∨ findCompletedUpTo m = 3 ∨ findCompletedUpTo m = 4 ∨
    findCompletedUpTo m = 5 := by
  rw [findCompletedUpTo_spec]
  split_ifs <;> simp

/-- Only the final step's completion marker resolves to the last index. -/
lemma findCompletedUpTo_ne_five (m : String) (hm : m ≠ "video_generated") :
    findCompletedUpTo m ≠ 5 := by
  have g5 : ¬("video_generated" = m) := fun e => hm e.symm
  rw [findCompletedUpTo_spec]
  simp only [matchesNode, Bool.or_eq_true, Bool.and_eq_true, beq_iff_eq]
  split_ifs <;> simp_all

/-- A marker that is no catalog completion marker and is not the skip-marker
resolves to `-1`. -/
lemma findCompletedUpTo_unmatched (m : String)
    (h : m ∉ completionMarkers) (hs : m ≠ "scene_image_skipped") :
    findCompletedUpTo m = -1 := by
  simp only [completionMarkers, PIPELINE_NODES, List.map_cons, List.map_nil,
    List.mem_cons, List.not_mem_nil, or_false, not_or] at h
  obtain ⟨h0, h1, h2, h3, h4, h5⟩ := h
  have g0 : ¬("video_downloaded" = m) := fun e => h0 e.symm
  have g1 : ¬("frames_extracted" = m) := fun e => h1 e.symm
  have g2 : ¬("video_analyzed" = m) := fun e => h2 e.symm
  have g3 : ¬("prompt_generated" = m) := fun e => h3 e.symm
  have g4 : ¬("scene_image_generated" = m) := fun e => h4 e.symm
  have g5 : ¬("video_generated" = m) := fun e => h5 e.symm
  rw [findCompletedUpTo_spec]
  simp only [matchesNode, Bool.or_eq_true, Bool.and_eq_true, beq_iff_eq]
  split_ifs <;> simp_all

/-- On non-`idle` statuses, `deriveNodeStatuses` is the per-index derivation
applied to the resolved completed index (`failed` case). -/
lemma derive_failed_eq (m : String) :
    deriveNodeStatuses m PipelineStatus.failed =
      deriveFromIndex (findCompletedUpTo m) PipelineStatus.failed := by
  simp [deriveNodeStatuses]

/-- As `derive_failed_eq`, for the `running` status. -/
lemma derive_running_eq (m : String) :
    deriveNodeStatuses m PipelineStatus.running =
      deriveFromIndex (findCompletedUpTo m) PipelineStatus.running := by
  simp [deriveNodeStatuses]

/-- As `derive_failed_eq`, for the `completed` status. -/
lemma derive_completed_eq (m : String) :
    deriveNodeStatuses m PipelineStatus.completed =
      deriveFromIndex (findCompletedUpTo m) PipelineStatus.completed := by
  simp [deriveNodeStatuses]

/-- Function `stopPolling` always leaves the interval cleared. -/
lemma stopPolling_interval (c : PollingClient) : (stopPolling c).intervalActive = false := by
  unfold stopPolling
  cases hI : c.intervalActive <;> cases hA : c.abortController <;> simp [hI, hA]

/-- Function `stopPolling` clears `isPolling`. -/
lemma stopPolling_isPolling (c : PollingClient) : (stopPolling c).isPolling = false := by
  unfold stopPolling
  cases hI : c.intervalActive <;> cases hA : c.abortController <;> simp [hI, hA]

/-- Function `stopPolling` issues no status request. -/
lemma stopPolling_requestLog (c : PollingClient) :
    (stopPolling c).requestLog = c.requestLog := by
  unfold stopPolling
  cases hI : c.intervalActive <;> cases hA : c.abortController <;> simp [hI, hA]

/-- Function `stopPolling` leaves the controller ref `null`. -/
lemma stopPolling_abortController (c : PollingClient) :
    (stopPolling c).abortController = none := by
  unfold stopPolling
  cases hI : c.intervalActive <;> cases hA : c.abortController <;> simp [hI, hA]

/-- With no controller ever assigned, `stopPolling` leaves every in-flight
request untouched. -/
lemma stopPolling_inFlight (c : PollingClient) (h : c.abortController = none) :
    (stopPolling c).inFlight = c.inFlight := by
  unfold stopPolling
  cases hI : c.intervalActive <;> simp [hI, h]

/-- C1: for every marker, under overall status `failed`, `deriveNodeStatuses`
assigns `completed` to every index at most the resolved completed index,
`failed` to the single index `completedIndex + 1` (which is index 0 when the
index is `-1`), and `pending` to all higher indices; with the 6-step catalog
and marker `video_analyzed` it returns download/extract/analyze `completed`,
prompt `failed`, scene image and render `pending`. -/
theorem c1_failed_statuses :
    (∀ (m : String) (i : Fin PIPELINE_NODES.length),
      deriveNodeStatuses m PipelineStatus.failed (stepId i) =
        (if ((i : Nat) : Int) ≤ findCompletedUpTo m then NodeStatus.completed
         else if ((i : Nat) : Int) = findCompletedUpTo m + 1 then NodeStatus.failed
         else NodeStatus.pending)) ∧
    (deriveNodeStatuses ("video_analyzed") PipelineStatus.failed
        PipelineNodeId.download_video = NodeStatus.completed ∧
     deriveNodeStatuses ("video_analyzed") PipelineStatus.failed
        PipelineNodeId.extract_frames = NodeStatus.completed ∧
     deriveNodeStatuses ("video_analyzed") PipelineStatus.failed
        PipelineNodeId.analyze_video = NodeStatus.completed ∧
     deriveNodeStatuses ("video_analyzed") PipelineStatus.failed
        PipelineNodeId.generate_prompt = NodeStatus.failed ∧
     deriveNodeStatuses ("video_analyzed") PipelineStatus.failed
        PipelineNodeId.generate_scene_image = NodeStatus.pending ∧
     deriveNodeStatuses ("video_analyzed") PipelineStatus.failed
        PipelineNodeId.generate_video = NodeStatus.pending) := by
  constructor
  · intro m i
    rw [derive_failed_eq]
    rcases findCompletedUpTo_cases m with h|h|h|h|h|h|h <;> rw [h] <;> revert i <;> decide
  · decide

/-- C2 counterexample: with the final catalog step's completion marker
`video_generated` and overall status `failed`, every node is `completed` and
no node at all has status `failed`, refuting "exactly one step has status
`failed` … for all markers, including the marker of the final catalog step". -/
theorem c2_counterexample :
    (∀ i : Fin PIPELINE_NODES.length,
      deriveNodeStatuses ("video_generated") PipelineStatus.failed (stepId i) =
        NodeStatus.completed) ∧
    ¬(∃ i : Fin PIPELINE_NODES.length,
      deriveNodeStatuses ("video_generated") PipelineStatus.failed (stepId i) =
        NodeStatus.failed) := by decide

/-- C2 (amended): for every marker other than the final catalog step's
completion marker, under overall status `failed` exactly one step has status
`failed`, it is immediately after the last `completed` step (all lower
indices are `completed`, all higher ones `pending`, so it is index 0 when
none completed). -/
theorem c2_failed_adjacency (m : String) (hm : m ≠ "video_generated") :
    ∃ k : Fin PIPELINE_NODES.length,
      deriveNodeStatuses m PipelineStatus.failed (stepId k) = NodeStatus.failed ∧
      (∀ j : Fin PIPELINE_NODES.length, (j : Nat) < (k : Nat) →
        deriveNodeStatuses m PipelineStatus.failed (stepId j) = NodeStatus.completed) ∧
      (∀ j : Fin PIPELINE_NODES.length, (k : Nat) < (j : Nat) →
        deriveNodeStatuses m PipelineStatus.failed (stepId j) = NodeStatus.pending) ∧
      (∀ j : Fin PIPELINE_NODES.length,
        deriveNodeStatuses m PipelineStatus.failed (stepId j) = NodeStatus.failed → j = k) := by
  have h5 := findCompletedUpTo_ne_five m hm
  rw [derive_failed_eq]
  rcases findCompletedUpTo_cases m with h|h|h|h|h|h|h
  · rw [h]; decide
  · rw [h]; decide
  · rw [h]; decide
  · rw [h]; decide
  · rw [h]; decide
  · rw [h]; decide
  · exact absurd h h5

/-- C2 witness: the amended adjacency property instantiated at the concrete
marker `video_analyzed`. -/
theorem c2_failed_adjacency_witness :
    ("video_analyzed" : String) ≠ "video_generated" ∧
    (∃ k : Fin PIPELINE_NODES.length,
      deriveNodeStatuses ("video_analyzed") PipelineStatus.failed (stepId k) = NodeStatus.failed ∧
      (∀ j : Fin PIPELINE_NODES.length, (j : Nat) < (k : Nat) →
        deriveNodeStatuses ("video_analyzed") PipelineStatus.failed (stepId j) =
          NodeStatus.completed) ∧
      (∀ j : Fin PIPELINE_NODES.length, (k : Nat) < (j : Nat) →
        deriveNodeStatuses ("video_analyzed") PipelineStatus.failed (stepId j) =
          NodeStatus.pending) ∧
      (∀ j : Fin PIPELINE_NODES.length,
        deriveNodeStatuses ("video_analyzed") PipelineStatus.failed (stepId j) =
          NodeStatus.failed → j = k)) :=
  ⟨by decide, c2_failed_adjacency ("video_analyzed") (by decide)⟩

/-- C3 counterexample: with the final catalog step's completion marker
`video_generated` and overall status `running`, every node is `completed`
and no node has status `running`, refuting "assigns `running` to exactly one
step" as a statement over every marker. -/
theorem c3_counterexample :
    (∀ i : Fin PIPELINE_NODES.length,
      deriveNodeStatuses ("video_generated") PipelineStatus.running (stepId i) =
        NodeStatus.completed) ∧
    ¬(∃ i : Fin PIPELINE_NODES.length,
      deriveNodeStatuses ("video_generated") PipelineStatus.running (stepId i) =
        NodeStatus.running) := by decide

/-- C3 (amended): for every marker other than the final catalog step's
completion marker, under overall status `running` exactly one step has
status `running` — the one immediately after the highest `completed` step
(index 0 when no marker matches) — every earlier step is `completed` and
every later step `pending`. -/
theorem c3_running_single_active (m : String) (hm : m ≠ "video_generated") :
    ∃ k : Fin PIPELINE_NODES.length,
      deriveNodeStatuses m PipelineStatus.running (stepId k) = NodeStatus.running ∧
      (∀ j : Fin PIPELINE_NODES.length, (j : Nat) < (k : Nat) →
        deriveNodeStatuses m PipelineStatus.running (stepId j) = NodeStatus.completed) ∧
      (∀ j : Fin PIPELINE_NODES.length, (k : Nat) < (j : Nat) →
        deriveNodeStatuses m PipelineStatus.running (stepId j) = NodeStatus.pending) ∧
      (∀ j : Fin PIPELINE_NODES.length,
        deriveNodeStatuses m PipelineStatus.running (stepId j) = NodeStatus.running → j = k) := by
  have h5 := findCompletedUpTo_ne_five m hm
  rw [derive_running_eq]
  rcases findCompletedUpTo_cases m with h|h|h|h|h|h|h
  · rw [h]; decide
  · rw [h]; decide
  · rw [h]; decide
  · rw [h]; decide
  · rw [h]; decide
  · rw [h]; decide
  · exact absurd h h5

/-- C3 witness: the amended single-active property instantiated at the UI
placeholder marker `Starting...`, which matches no completion marker, so the
first step is `running` and the other five are `pending`. -/
theorem c3_running_single_active_witness :
    ("Starting..." : String) ≠ "video_generated" ∧
    (∃ k : Fin PIPELINE_NODES.length,
      deriveNodeStatuses ("Starting...") PipelineStatus.running (stepId k) = NodeStatus.running ∧
      (∀ j : Fin PIPELINE_NODES.length, (j : Nat) < (k : Nat) →
        deriveNodeStatuses ("Starting...") PipelineStatus.running (stepId j) =
          NodeStatus.completed) ∧
      (∀ j : Fin PIPELINE_NODES.length, (k : Nat) < (j : Nat) →
        deriveNodeStatuses ("Starting...") PipelineStatus.running (stepId j) =
          NodeStatus.pending) ∧
      (∀ j : Fin PIPELINE_NODES.length,
        deriveNodeStatuses ("Starting...") PipelineStatus.running (stepId j) =
          NodeStatus.running → j = k)) :=
  ⟨by decide, c3_running_single_active ("Starting...") (by decide)⟩

/-- C4: for every marker — including the skip-marker `scene_image_skipped`
and every intermediate step's marker — under overall status `completed`,
every one of the six catalog steps is `completed` (no `pending` or `running`
node appears). -/
theorem c4_completed_all (m : String) (i : Fin PIPELINE_NODES.length) :
    deriveNodeStatuses m PipelineStatus.completed (stepId i) = NodeStatus.completed := by
  rw [derive_completed_eq]
  rcases findCompletedUpTo_cases m with h|h|h|h|h|h|h <;> rw [h] <;> revert i <;> decide

/-- C5: the skip-marker `scene_image_skipped` resolves to the index of the
`generate_scene_image` step (index 4), exactly as the step's own completion
marker `scene_image_generated` does, and `deriveNodeStatuses` agrees on the
two markers for every overall status. -/
theorem c5_skip_marker_equiv :
    findCompletedUpTo ("scene_image_skipped") = 4 ∧
    stepId ⟨4, by decide⟩ = PipelineNodeId.generate_scene_image ∧
    findCompletedUpTo ("scene_image_generated") = 4 ∧
    ∀ (s : PipelineStatus) (i : Fin PIPELINE_NODES.length),
      deriveNodeStatuses ("scene_image_skipped") s (stepId i) =
        deriveNodeStatuses ("scene_image_generated") s (stepId i) := by decide

/-- C6: `deriveNodeStatuses` is pure and total — for every string marker and
every overall status it assigns each of the six catalog steps exactly one of
the five node statuses — and when the overall status is `idle` every step is
`idle`. -/
theorem c6_total_and_idle (m : String) (s : PipelineStatus)
    (i : Fin PIPELINE_NODES.length) :
    (deriveNodeStatuses m s (stepId i) = NodeStatus.idle ∨
     deriveNodeStatuses m s (stepId i) = NodeStatus.pending ∨
     deriveNodeStatuses m s (stepId i) = NodeStatus.running ∨
     deriveNodeStatuses m s (stepId i) = NodeStatus.completed ∨
     deriveNodeStatuses m s (stepId i) = NodeStatus.failed) ∧
    deriveNodeStatuses m PipelineStatus.idle (stepId i) = NodeStatus.idle := by
  constructor
  · cases h : deriveNodeStatuses m s (stepId i) <;> simp
  · have e : deriveNodeStatuses m PipelineStatus.idle =
        PIPELINE_NODES.foldl (fun r node => setNS r node.id NodeStatus.idle) emptyRecord := rfl
    rw [e]
    revert i
    decide

/-- C10: any two markers that match no catalog completion marker and are not
the skip-marker (such as the UI placeholder `Starting...` or the empty
string) are treated identically — `deriveNodeStatuses` returns the same map
for both under the same non-idle overall status. -/
theorem c10_unmatched_equiv (m1 m2 : String)
    (h1 : m1 ∉ completionMarkers) (h1s : m1 ≠ "scene_image_skipped")
    (h2 : m2 ∉ completionMarkers) (h2s : m2 ≠ "scene_image_skipped")
    (s : PipelineStatus)
    (hs : s = PipelineStatus.running ∨ s = PipelineStatus.completed ∨
      s = PipelineStatus.failed) :
    ∀ i : Fin PIPELINE_NODES.length,
      deriveNodeStatuses m1 s (stepId i) = deriveNodeStatuses m2 s (stepId i) := by
  intro i
  have e1 := findCompletedUpTo_unmatched m1 h1 h1s
  have e2 := findCompletedUpTo_unmatched m2 h2 h2s
  rcases hs with h|h|h <;> subst h
  · rw [derive_running_eq, derive_running_eq, e1, e2]
  · rw [derive_completed_eq, derive_completed_eq, e1, e2]
  · rw [derive_failed_eq, derive_failed_eq, e1, e2]

/-- C10 witness: the unmatched markers `Starting...` and `""` yield the same
statuses under overall status `running`. -/
theorem c10_unmatched_equiv_witness :
    ("Starting..." : String) ∉ completionMarkers ∧
    ("Starting..." : String) ≠ "scene_image_skipped" ∧
    ("" : String) ∉ completionMarkers ∧
    ("" : String) ≠ "scene_image_skipped" ∧
    ∀ i : Fin PIPELINE_NODES.length,
      deriveNodeStatuses ("Starting...") PipelineStatus.running (stepId i) =
        deriveNodeStatuses ("") PipelineStatus.running (stepId i) :=
  ⟨by decide, by decide, by decide, by decide,
    c10_unmatched_equiv ("Starting...") "" (by decide) (by decide) (by decide) (by decide)
      PipelineStatus.running (Or.inl rfl)⟩

/-- C7: the prompt fallback resolver obeys strict three-tier priority with
provenance — a present, non-empty enhanced result wins with source
`enhanced`; otherwise a present, non-empty base result wins with source
`base`; otherwise the caller-supplied static template is returned with
source `fallback`. -/
theorem c7_fallback_priority (e b : Option String) (t : String) :
    (∀ s : String, e = some s → s ≠ "" →
      resolvePrompt e b t = ⟨s, PromptSource.enhanced⟩) ∧
    ((e = none ∨ e = some ("")) → ∀ s : String, b = some s → s ≠ "" →
      resolvePrompt e b t = ⟨s, PromptSource.base⟩) ∧
    ((e = none ∨ e = some ("")) → (b = none ∨ b = some ("")) →
      resolvePrompt e b t = ⟨t, PromptSource.fallback⟩) := by
  refine ⟨?_, ?_, ?_⟩
  · intro s hs hne
    subst hs
    simp [resolvePrompt, hne]
  · intro he s hb hbne
    subst hb
    rcases he with he|he <;> subst he <;> simp [resolvePrompt, hbne]
  · intro he hb
    rcases he with he|he <;> rcases hb with hb|hb <;> subst he <;> subst hb <;>
      simp [resolvePrompt]

/-- C7 witness: the three tiers at concrete inputs. -/
theorem c7_fallback_priority_witness :
    resolvePrompt (some ("mechanics prompt")) (some ("base prompt")) "static template" =
      ⟨"mechanics prompt", PromptSource.enhanced⟩ ∧
    resolvePrompt none (some ("base prompt")) "static template" =
      ⟨"base prompt", PromptSource.base⟩ ∧
    resolvePrompt (some ("")) none ("static template") =
      ⟨"static template", PromptSource.fallback⟩ :=
  ⟨(c7_fallback_priority (some ("mechanics prompt")) (some ("base prompt"))
      "static template").1 ("mechanics prompt") rfl (by decide),
   (c7_fallback_priority none (some ("base prompt")) "static template").2.1
      (Or.inl rfl) "base prompt" rfl (by decide),
   (c7_fallback_priority (some ("")) none ("static template")).2.2
      (Or.inr rfl) (Or.inl rfl)⟩

/-- C8: while the interval is installed, each tick issues exactly one status
request; a failed status check is reported to the error observer and leaves
the interval installed, so polling continues on the next tick; a terminal
status (`completed` or `failed`) stops polling, as does explicit
cancellation; a non-terminal status leaves the interval installed. -/
theorem c8_poll_until_terminal (c : PollingClient) (jobId msg : String)
    (r : PollResult) (hA : c.intervalActive = true) :
    ((resolvePoll c (PollOutcome.failure msg)).1.intervalActive = true ∧
     (resolvePoll c (PollOutcome.failure msg)).2 = [ObserverEvent.onError msg]) ∧
    (tick c jobId).requestLog =
      c.requestLog ++ [{ jobId := jobId, hasAbortSignal := false }] ∧
    (r.status = JobStatus.completed ∨ r.status = JobStatus.failed →
      (resolvePoll c (PollOutcome.success r)).1.intervalActive = false ∧
      (resolvePoll c (PollOutcome.success r)).1.isPolling = false) ∧
    (r.status = JobStatus.pending ∨ r.status = JobStatus.running →
      (resolvePoll c (PollOutcome.success r)).1.intervalActive = true) ∧
    (stopPolling c).intervalActive = false := by
  refine ⟨⟨?_, rfl⟩, ?_, ?_, ?_, stopPolling_interval c⟩
  · simp [resolvePoll, hA]
  · simp [tick, hA, issuePoll]
  · intro h
    rcases h with h|h <;>
      simp [resolvePoll, h, stopPolling_interval, stopPolling_isPolling]
  · intro h
    rcases h with h|h <;> simp [resolvePoll, h, hA]

/-- C8 witness: the failure-continues-polling conjunct at a concrete state
obtained by starting the poller. -/
theorem c8_poll_until_terminal_witness :
    (resolvePoll (startPolling initClient ("job-1"))
        (PollOutcome.failure ("network error"))).1.intervalActive = true ∧
    (resolvePoll (startPolling initClient ("job-1"))
        (PollOutcome.failure ("network error"))).2 =
      [ObserverEvent.onError ("network error")] :=
  (c8_poll_until_terminal (startPolling initClient ("job-1")) "job-1" "network error"
    { jobId := "job-1", status := JobStatus.running, error := none } (by decide)).1

/-- C9 counterexample: start polling (the initial `poll()` leaves one status
request in flight), then cancel.  The in-flight request is not aborted —
`pollStatus` attaches no abort signal to its `fetch`, and the hook never
assigns a controller to `abortControllerRef` — refuting "any in-flight
request is aborted". -/
theorem c9_counterexample :
    (startPolling initClient ("job-1")).inFlight.length = 1 ∧
    (stopPolling (startPolling initClient ("job-1"))).inFlight =
      (startPolling initClient ("job-1")).inFlight ∧
    (stopPolling (startPolling initClient ("job-1"))).inFlight.map
      (fun f => f.aborted) = [false] := by decide

/-- C9 (amended): after `stopPolling` the interval is cleared and no later
tick or late response issues a status request; in-flight requests are left
untouched (not aborted, since no controller was ever assigned and no fetch
carries a signal); and cancellation does not change the backend job store. -/
theorem c9_cancellation (w : World) (jobId : String)
    (h : w.client.abortController = none) :
    (stopPollingW w).client.intervalActive = false ∧
    (stopPollingW w).client.isPolling = false ∧
    tick (stopPollingW w).client jobId = (stopPollingW w).client ∧
    (stopPollingW w).client.requestLog = w.client.requestLog ∧
    (stopPollingW w).client.inFlight = w.client.inFlight ∧
    (stopPollingW w).jobs = w.jobs ∧
    (∀ (c : PollingClient) (o : PollOutcome),
      (resolvePoll c o).1.requestLog = c.requestLog) ∧
    (∀ (c : PollingClient) (j : String),
      (startPolling c j).abortController = c.abortController ∧
      (tick c j).abortController = c.abortController) ∧
    (∀ (c : PollingClient) (o : PollOutcome), c.abortController = none →
      (resolvePoll c o).1.abortController = none) := by
  refine ⟨stopPolling_interval w.client, stopPolling_isPolling w.client, ?_,
    stopPolling_requestLog w.client, stopPolling_inFlight w.client h, rfl, ?_, ?_, ?_⟩
  · simp [tick, stopPollingW, stopPolling_interval]
  · intro c o
    cases o with
    | failure msg => rfl
    | success r =>
      cases hs : r.status <;>
        simp [resolvePoll, hs, stopPolling_requestLog]
  · intro c j
    constructor
    · rfl
    · unfold tick issuePoll
      cases hI : c.intervalActive <;> simp [hI]
  · intro c o hc
    cases o with
    | failure msg => simpa [resolvePoll] using hc
    | success r =>
      cases hs : r.status <;>
        simp [resolvePoll, hs, stopPolling_abortController, hc]

/-- C9 witness: the amended cancellation property at a concrete world whose
client has just started polling one job. -/
theorem c9_cancellation_witness :
    sampleWorld.client.abortController = none ∧
    (stopPollingW sampleWorld).client.intervalActive = false ∧
    (stopPollingW sampleWorld).jobs = [("job-1", JobStatus.running)] :=
  ⟨by decide,
   (c9_cancellation sampleWorld ("job-1") (by decide)).1,
   (c9_cancellation sampleWorld ("job-1") (by decide)).2.2.2.2.2.1⟩

end AutoUGC
